import Mathlib

/-!
# Verification of the Baileys WhatsApp service (src/index.js)

Shallow embedding of the per-instance connection lifecycle controller and the
multi-instance session registry implemented in `src/index.js`, together with
proofs about the behaviour that the design document ascribes to it.

The embedding follows the source file:
* the `sessions` Map is modelled as a function from instance names to optional
  session records (`Registry`);
* the per-create one-shot promise (`qrCodePromise` together with the
  `qrCodeResolve` / `qrCodeReject` cell and the `apiTimeout` timer) is modelled
  as an explicit state machine (`CreateWait`) driven by protocol events;
* each HTTP handler becomes a pure function from the registry (and the event
  data it reads) to its response.

JavaScript truthiness conventions are noted at each definition where they
matter (an absent field and `null` both map to `none`; a numeric `0`
timestamp is falsy and is treated as absent where the source tests it).
-/

set_option autoImplicit false

namespace Baileys

/-- The Baileys `DisconnectReason.loggedOut` status code (401): the only
disconnect status the source treats as terminal. -/
def loggedOutCode : Nat := 401

/-- One session record of the `sessions` Map.  Fields mirror the properties
the source reads or writes on a session object: `isConnected`, `qrCode`
(base64 artifact; `none` models both `null` and absent), `qrRaw`,
`qrGeneratedAt` (epoch milliseconds), `createdAt`, and whether a socket object
is attached (`sock`). -/
structure Session where
  isConnected : Bool
  qrCode : Option String
  qrRaw : Option String
  qrGeneratedAt : Option Nat
  createdAt : Nat
  hasSock : Bool
  deriving DecidableEq, Repr

/-- The session record `startSock` installs before any protocol event
arrives: `{ createdAt: new Date() }` merged with the fresh socket.  All other
fields are absent, hence falsy. -/
def freshSession (t : Nat) : Session :=
  { isConnected := false
    qrCode := none
    qrRaw := none
    qrGeneratedAt := none
    createdAt := t
    hasSock := true }

/-- The in-memory `sessions` Map, keyed by instance name. -/
def Registry : Type := String → Option Session

/-- The empty registry (service start-up). -/
def Registry.empty : Registry := fun _ => none

/-- `sessions.set(name, s)`. -/
def Registry.set (reg : Registry) (name : String) (s : Session) : Registry :=
  fun k => if k = name then some s else reg k

/-- `sessions.delete(name)`. -/
def Registry.erase (reg : Registry) (name : String) : Registry :=
  fun k => if k = name then none else reg k

/-! ## The one-shot create promise (`qrCodePromise`)

`POST /instance/create` builds a promise resolved by the first QR code,
rejected on timeout or terminal logout, and also resolved (with `null`) when
the connection opens without a QR.  The resolve/reject callbacks live in the
mutable cell `qrCodeResolve` / `qrCodeReject`; the source nulls them together
on the QR and open paths and in the timeout callback, and leaves them set on
the terminal-close path.  A JavaScript promise settles at most once: later
resolve/reject calls are no-ops. -/

/-- The four ways the initial-result wait can settle. -/
inductive Outcome where
  | code      -- first QR code rendered and delivered
  | opened    -- connection opened without a QR (restored session)
  | terminal  -- session logged out during startup (rejection)
  | timeout   -- 60 s timer fired (rejection)
  deriving DecidableEq, Repr

/-- A promise cell: the settled value, if any, plus a count of the settle
calls that actually took effect (a JavaScript promise ignores all but the
first). -/
structure PromiseCell where
  settled : Option Outcome
  deliveries : Nat
  deriving DecidableEq, Repr

/-- Settling a promise: only the first call takes effect. -/
def PromiseCell.settle (p : PromiseCell) (o : Outcome) : PromiseCell :=
  match p.settled with
  | some _ => p
  | none => { settled := some o, deliveries := p.deliveries + 1 }

/-- State of one create call and its initial-result wait: the promise, whether the
`qrCodeResolve`/`qrCodeReject` cell still holds the callbacks (the source
always nulls or keeps the two together), and whether `apiTimeout` is still
armed (not yet fired and not yet cleared). -/
structure CreateWait where
  cell : PromiseCell
  resolveActive : Bool
  timerArmed : Bool
  deriving DecidableEq, Repr

/-- State right after the promise and the 60 s timer are created. -/
def initWait : CreateWait :=
  { cell := { settled := none, deliveries := 0 }
    resolveActive := true
    timerArmed := true }

/-- Events that can reach the wait state: the `connection.update` handler and its
QR, open and close branches (close split by terminal/transient status code),
a QR render failure (caught and logged, no resolution), and the firing of the
60 s `apiTimeout` timer. -/
inductive WaitEvent where
  | qrIssued       -- `qr` field present and rendering succeeded
  | renderError    -- `qr` field present but `QRCode.toDataURL` threw
  | connOpen       -- connection = "open"
  | closeTerminal  -- connection = "close" with statusCode = loggedOut
  | closeTransient -- connection = "close" with any other statusCode
  | deadline       -- the 60 s timer fires if still armed
  deriving DecidableEq, Repr

/-- One step of the wait state machine, transcribed from the handlers in
`src/index.js`:
* QR branch: `if (qrCodeResolve) { clearTimeout; resolve(qr); null both }`;
* open branch: `if (qrCodeResolve) { clearTimeout; resolve(null); null both }`;
* terminal close: `if (qrCodeReject) { clearTimeout; reject(...) }` — note the
  source does not null the callbacks here;
* transient close: no effect on the wait (only schedules a reconnect);
* timeout callback: `if (qrCodeReject) { reject(...); null both }`, and the
  timer disarms itself by firing. -/
def stepWait (st : CreateWait) (e : WaitEvent) : CreateWait :=
  match e with
  | .qrIssued =>
      if st.resolveActive then
        { cell := st.cell.settle .code, resolveActive := false, timerArmed := false }
      else st
  | .renderError => st
  | .connOpen =>
      if st.resolveActive then
        { cell := st.cell.settle .opened, resolveActive := false, timerArmed := false }
      else st
  | .closeTerminal =>
      if st.resolveActive then
        { st with cell := st.cell.settle .terminal, timerArmed := false }
      else st
  | .closeTransient => st
  | .deadline =>
      if st.timerArmed then
        { cell := st.cell.settle .timeout, resolveActive := false, timerArmed := false }
      else st

/-- Run the wait state machine over a list of events. -/
def runWait (st : CreateWait) (es : List WaitEvent) : CreateWait :=
  es.foldl stepWait st

/-- Invariant tying the pieces of the wait state together: while the timer is
armed the callbacks are still in place, the promise is settled exactly when
the timer is no longer armed, and the effective-delivery count is 0 before
settling and 1 after. -/
def WaitInv (st : CreateWait) : Prop :=
  (st.timerArmed = true → st.resolveActive = true) ∧
  (st.cell.settled = none ↔ st.timerArmed = true) ∧
  st.cell.deliveries = (if st.cell.settled.isSome then 1 else 0)

theorem waitInv_init : WaitInv initWait := by
  refine ⟨fun _ => rfl, ?_, rfl⟩
  simp [initWait]

theorem waitInv_step (st : CreateWait) (e : WaitEvent) (h : WaitInv st) :
    WaitInv (stepWait st e) := by
  obtain ⟨h1, h2, h3⟩ := h
  cases e <;> simp only [stepWait]
  case renderError => exact ⟨h1, h2, h3⟩
  case closeTransient => exact ⟨h1, h2, h3⟩
  case qrIssued =>
    by_cases hr : st.resolveActive = true
    · simp only [hr, if_true]
      cases hs : st.cell.settled with
      | none =>
          refine ⟨fun hc => by simp at hc, ?_, ?_⟩ <;>
            simp [PromiseCell.settle, hs, h3]
      | some o =>
          refine ⟨fun hc => by simp at hc, ?_, ?_⟩ <;>
            simp [PromiseCell.settle, hs, h3]
    · simp only [hr, if_false]
      exact ⟨h1, h2, h3⟩
  case connOpen =>
    by_cases hr : st.resolveActive = true
    · simp only [hr, if_true]
      cases hs : st.cell.settled with
      | none =>
          refine ⟨fun hc => by simp at hc, ?_, ?_⟩ <;>
            simp [PromiseCell.settle, hs, h3]
      | some o =>
          refine ⟨fun hc => by simp at hc, ?_, ?_⟩ <;>
            simp [PromiseCell.settle, hs, h3]
    · simp only [hr, if_false]
      exact ⟨h1, h2, h3⟩
  case closeTerminal =>
    by_cases hr : st.resolveActive = true
    · simp only [hr, if_true]
      cases hs : st.cell.settled with
      | none =>
          refine ⟨fun hc => by simp at hc, ?_, ?_⟩ <;>
            simp [PromiseCell.settle, hs, h3]
      | some o =>
          refine ⟨fun hc => by simp at hc, ?_, ?_⟩ <;>
            simp [PromiseCell.settle, hs, h3]
    · simp only [hr, if_false]
      exact ⟨h1, h2, h3⟩
  case deadline =>
    by_cases ht : st.timerArmed = true
    · have hs : st.cell.settled = none := h2.mpr ht
      simp only [ht, if_true]
      refine ⟨fun hc => by simp at hc, ?_, ?_⟩ <;>
        simp [PromiseCell.settle, hs, h3]
    · simp only [ht, if_false]
      exact ⟨h1, h2, h3⟩

theorem waitInv_run (st : CreateWait) (es : List WaitEvent) (h : WaitInv st) :
    WaitInv (runWait st es) := by
  induction es generalizing st with
  | nil => exact h
  | cons e rest ih => exact ih _ (waitInv_step st e h)

/-- Once the promise is settled, it stays settled with the same value. -/
theorem stepWait_settled_mono (st : CreateWait) (e : WaitEvent) (o : Outcome)
    (h : st.cell.settled = some o) : (stepWait st e).cell.settled = some o := by
  cases e <;> simp only [stepWait] <;>
    first
      | exact h
      | · by_cases hr : st.resolveActive = true
          · simp [hr, PromiseCell.settle, h]
          · simp [hr, h]
      | · by_cases ht : st.timerArmed = true
          · simp [ht, PromiseCell.settle, h]
          · simp [ht, h]

theorem runWait_settled_mono (st : CreateWait) (es : List WaitEvent) (o : Outcome)
    (h : st.cell.settled = some o) : (runWait st es).cell.settled = some o := by
  induction es generalizing st with
  | nil => exact h
  | cons e rest ih => exact ih _ (stepWait_settled_mono st e o h)

/-! ## Session-level effect of connection events

The `connection.update` handler also mutates the session record: the QR
branch stores the artifact and stamps it, the open branch sets the connected
flag and clears the artifact.  Neither close branch touches the fields of the
session record (the terminal branch deletes the whole entry from the map,
which is modelled at the registry level). -/

/-- QR branch of `connection.update` on the session record:
`s.qrCode = qrBase64; s.qrRaw = qr; s.qrGeneratedAt = Date.now();
s.isConnected = false`. -/
def handleQr (s : Session) (qrBase64 qrRaw : String) (now : Nat) : Session :=
  { s with qrCode := some qrBase64, qrRaw := some qrRaw,
           qrGeneratedAt := some now, isConnected := false }

/-- Open branch of `connection.update` on the session record:
`s.isConnected = true; s.qrCode = null`. -/
def handleOpen (s : Session) : Session :=
  { s with isConnected := true, qrCode := none }

/-- Protocol events as they reach the handlers of one instance, with the data the
session-level handlers read. -/
inductive ProtoEvent where
  | qrIssued (qrBase64 qrRaw : String) (now : Nat)
  | connOpen
  | close (statusCode : Nat)
  deriving DecidableEq, Repr

/-- Effect of one protocol event on the session record.  A close event leaves
every field of the record unchanged: in particular the source never resets
`isConnected` on a transient close. -/
def sessStep (s : Session) (e : ProtoEvent) : Session :=
  match e with
  | .qrIssued qrBase64 qrRaw now => handleQr s qrBase64 qrRaw now
  | .connOpen => handleOpen s
  | .close _ => s

/-- Run a list of protocol events over a session record. -/
def sessRun (s : Session) (es : List ProtoEvent) : Session :=
  es.foldl sessStep s

/-- Modelled from the spec: the four-state lifecycle of §4.1
(`connecting | awaiting_code | open | closed`), which the source does not
materialise as a field.  Used to compare the observable gates of the code
against the state machine of the spec. -/
inductive Lifecycle where
  | connecting
  | awaitingCode
  | opened
  | closed
  deriving DecidableEq, Repr

/-- Modelled from the spec, §4.1 transitions: code issued enters
`awaiting_code`, session open enters `open`, a terminal close enters `closed`,
and any transient close re-enters `connecting` via the reconnect loop. -/
def specLifecycleStep (_l : Lifecycle) (e : ProtoEvent) : Lifecycle :=
  match e with
  | .qrIssued _ _ _ => .awaitingCode
  | .connOpen => .opened
  | .close c => if c = loggedOutCode then .closed else .connecting

/-- Modelled from the spec: lifecycle after a history of protocol events,
starting from `connecting` (entered by `start()`). -/
def specLifecycle (es : List ProtoEvent) : Lifecycle :=
  es.foldl specLifecycleStep .connecting

/-! ## POST /instance/create — duplicate handling -/

/-- Outcome of the duplicate-session checks at the top of
`POST /instance/create` (lines 44–93). -/
inductive CreatePath where
  | alreadyConnected
      -- entry exists and `isConnected`: status "open" returned, no new socket
  | pendingQr (qr : String)
      -- entry exists with a truthy `qrCode`: return it, no new socket
  | freshStart (toreDownExisting : Bool)
      -- fall through: end and delete any existing entry, wipe the auth
      -- folder, create a new auth state and a new socket
  deriving DecidableEq, Repr

/-- The duplicate-session logic of `POST /instance/create`, transcribed from
the source: an existing connected entry and an existing entry with a pending
QR short-circuit; any other existing entry (for example one still connecting
with no QR yet) is closed, removed and replaced by a fresh session. -/
def createPath (reg : Registry) (name : String) : CreatePath :=
  match reg name with
  | none => .freshStart false
  | some s =>
      if s.isConnected then .alreadyConnected
      else
        match s.qrCode with
        | some qr => .pendingQr qr
        | none => .freshStart true

/-- Registry after the create call has taken its path: the two idempotent
paths leave the map unchanged; the fresh-start path deletes any existing
entry and installs the session record `startSock` creates. -/
def createApply (reg : Registry) (name : String) (t : Nat) : Registry :=
  match createPath reg name with
  | .alreadyConnected => reg
  | .pendingQr _ => reg
  | .freshStart _ => (reg.erase name).set name (freshSession t)

/-! ## The create response (lines 293–311) -/

/-- Result of `POST /instance/create` as seen by the caller: either a JSON
body with an instance status and an optional QR, or a 500 error body. -/
inductive CreateResult where
  | ok (status : String) (qrcode : Option String)
  | error (msg : String)
  deriving DecidableEq, Repr

/-- The value the awaited `qrCodePromise` produced: `Except.ok` carries the
resolution value (`some` base64 for the QR path, `none` for the open path),
`Except.error` the rejection message. -/
def resolutionOf (o : Outcome) (qrBase64 : String) : Except String (Option String) :=
  match o with
  | .code => .ok (some qrBase64)
  | .opened => .ok none
  | .terminal => .error "Session logged out during startup"
  | .timeout => .error "QR generation timeout"

/-- Building the response after awaiting `qrCodePromise`: a rejection becomes
a 500 error; a resolution re-reads the session to choose the status string
and attaches the resolution value as the `qrcode` field when it is non-null
(`qrcode: qrResult ? { base64: qrResult } : undefined`). -/
def createFinish (resolution : Except String (Option String)) (reg : Registry)
    (name : String) : CreateResult :=
  match resolution with
  | .error msg => .error msg
  | .ok qrResult =>
      let isConn := match reg name with
        | some s => s.isConnected
        | none => false
      .ok (if isConn then "open" else "connecting") qrResult

/-! ## GET /instance/qr/:instanceName (lines 322–363) -/

/-- Response of the QR-refresh endpoint. -/
inductive QrQueryResult where
  | notFound              -- 404, unknown instance
  | connected             -- status "connected" body, no artifact
  | fresh (qr : String) (expiresIn : Nat)  -- artifact younger than 60 s
  | waiting               -- status "waiting" body, stale or missing artifact
  deriving DecidableEq, Repr

/-- The QR-refresh endpoint.  The source guards with
`session.qrCode && session.qrGeneratedAt`: a zero timestamp is falsy in
JavaScript, hence the explicit `t ≠ 0` test.  `expiresIn` is
`Math.floor((60000 - age) / 1000)`. -/
def qrQuery (reg : Registry) (name : String) (now : Nat) : QrQueryResult :=
  match reg name with
  | none => .notFound
  | some s =>
      if s.isConnected then .connected
      else
        match s.qrCode, s.qrGeneratedAt with
        | some qr, some t =>
            if t ≠ 0 then
              let age := now - t
              if age < 60000 then .fresh qr ((60000 - age) / 1000)
              else .waiting
            else .waiting
        | _, _ => .waiting

/-! ## GET /instance/fetchInstances (lines 366–397) -/

/-- One element of the single-instance `fetchInstances` response body. -/
structure FetchSingle where
  name : String
  connectionStatus : String
  qrcode : Option String
  createdAt : Nat
  deriving DecidableEq, Repr

/-- Result of the single-instance status query. -/
inductive FetchResult where
  | notFound
  | found (r : FetchSingle)
  deriving DecidableEq, Repr

/-- The single-instance branch of `GET /instance/fetchInstances`: 404 when
the name is unknown, otherwise the status string ("open" when connected,
"close" otherwise), the raw stored `qrcode` with no freshness check, and
`createdAt`. -/
def fetchInstances (reg : Registry) (name : String) : FetchResult :=
  match reg name with
  | none => .notFound
  | some s =>
      .found { name := name
               connectionStatus := if s.isConnected then "open" else "close"
               qrcode := s.qrCode
               createdAt := s.createdAt }

/-! ## Close handling and the reconnect loop (lines 240–264) -/

/-- Registry-level effect of one close connection event:
`shouldReconnect = statusCode !== DisconnectReason.loggedOut`.  When
reconnecting, `setTimeout(() => startSock(), 2000)` is scheduled and the map
is untouched; otherwise the entry is deleted and nothing is scheduled.
`reconnectDelay` is `some` of the backoff in milliseconds when a restart was
scheduled. -/
structure CloseEffect where
  reg : Registry
  reconnectDelay : Option Nat

/-- The close branch of `connection.update` at registry level. -/
def handleClose (reg : Registry) (name : String) (statusCode : Nat) : CloseEffect :=
  if statusCode ≠ loggedOutCode then
    { reg := reg, reconnectDelay := some 2000 }
  else
    { reg := reg.erase name, reconnectDelay := none }

/-- Iterated close handling: each scheduled restart re-registers the same
close branch on the new socket, so every later close event runs the same
logic.  Returns the final registry and how many reconnects were scheduled. -/
def runCloses (reg : Registry) (name : String) : List Nat → Registry × Nat
  | [] => (reg, 0)
  | c :: rest =>
      let eff := handleClose reg name c
      let res := runCloses eff.reg name rest
      (res.1, (if eff.reconnectDelay.isSome then 1 else 0) + res.2)

/-! ## POST /message/sendText/:instanceName (lines 457–488) -/

/-- Caller-visible result of a send. -/
inductive SendResult where
  | notConnected            -- 400 error body, "Instance not connected"
  | sent (jid : String)     -- 200 after `sock.sendMessage(jid, { text })`
  deriving DecidableEq, Repr

/-- The send endpoint: the gate is
reject with "Instance not connected" unless the session exists and
`session.isConnected` holds; only
past the gate is the jid computed and `sock.sendMessage` invoked.  The second
component records whether the underlying client send primitive was invoked. -/
def sendText (reg : Registry) (name : String) (number : String) (_text : String) :
    SendResult × Bool :=
  match reg name with
  | none => (.notConnected, false)
  | some s =>
      if s.isConnected then
        let jid := if number.contains '@' then number else number ++ "@s.whatsapp.net"
        (.sent jid, true)
      else (.notConnected, false)

/-! ## DELETE /instance/delete/:instanceName (lines 400–454) -/

/-- Outcome of the graceful `sock.logout()` raced against the 2 s timer. -/
inductive LogoutOutcome where
  | ok
  | failed (msg : String)   -- logout rejected
  | timedOut                -- the 2 s race timer won
  deriving DecidableEq, Repr

/-- The delete endpoint.  Every fallible step is absorbed by the source: the
logout race carries a `.catch` that only logs, `ws.terminate()` sits in a
try/catch, the auth-folder removal sits in a try/catch, and even the outer
catch replies with a 200 body.  The entry is deleted from the map whenever it
was present, regardless of those outcomes, and the handler always replies
with an acknowledgement. -/
def deleteInstance (reg : Registry) (name : String) (logoutRes : LogoutOutcome)
    (terminateThrew : Bool) (rmThrew : Bool) : String × Registry :=
  let reg1 :=
    match reg name with
    | some _ =>
        -- `await Promise.race([logoutPromise, timeoutPromise]).catch(log)`
        let _absorbLogout :=
          match logoutRes with
          | .ok => ()
          | .failed _ => ()  -- logged: `Logout failed (ignoring)`
          | .timedOut => ()  -- logged: `Logout timed out`
        -- `try { session.sock.ws.terminate() } catch { log }`
        let _absorbTerminate := if terminateThrew then () else ()
        Registry.erase reg name
    | none => reg
  -- `try { fs.rmSync(authPath) } catch { log }`
  let _absorbRm := if rmThrew then () else ()
  ("Instance deleted", reg1)

/-! ## The webhook dispatcher (messages.upsert handler, lines 160–207) -/

/-- The message key as read by the handler. -/
structure MsgKey where
  remoteJid : String
  fromMe : Bool
  id : String
  deriving DecidableEq, Repr

/-- The message body as read by the handler: `conversation` or
`extendedTextMessage?.text`. -/
structure WAMessage where
  conversation : Option String
  extendedText : Option String
  deriving DecidableEq, Repr

/-- One element of the `messages` array of a `messages.upsert` event. -/
structure UpsertMsg where
  key : MsgKey
  message : Option WAMessage
  messageTimestamp : Option Nat
  deriving DecidableEq, Repr

/-- JavaScript `a || b` on optional strings: the empty string is falsy. -/
def jsOrStr (a b : Option String) : Option String :=
  match a with
  | some s => if s = "" then b else some s
  | none => b

/-- JavaScript truthiness of an optional string (`undefined` and `""` are
falsy). -/
def truthyStr (o : Option String) : Bool :=
  match o with
  | some s => s ≠ ""
  | none => false

/-- Text content of a message:
`msg.message.conversation || msg.message.extendedTextMessage?.text`. -/
def msgContent (m : WAMessage) : Option String :=
  jsOrStr m.conversation m.extendedText

/-- The payload the dispatcher builds (the source comment says it matches the
Evolution API format): `type` is the literal string `"messages.upsert"` and
the timestamp field is named `messageTimestamp`, defaulting to the current
time when the message carries none (or carries the falsy `0`). -/
structure WebhookPayload where
  type : String
  key : MsgKey
  message : WAMessage
  messageTimestamp : Nat
  deriving DecidableEq, Repr

/-- JavaScript `msg.messageTimestamp || now` (`0` is falsy). -/
def jsOrNat (a : Option Nat) (now : Nat) : Nat :=
  match a with
  | some t => if t = 0 then now else t
  | none => now

/-- One pending outbound POST: the target URL and the payload. -/
structure WebhookPost where
  url : String
  payload : WebhookPayload
  deriving DecidableEq, Repr

/-- Helper: when `pat` is a prefix of the second list, return the remainder. -/
def stripPrefixChars : List Char → List Char → Option (List Char)
  | [], rest => some rest
  | _ :: _, [] => none
  | p :: ps, c :: cs => if p = c then stripPrefixChars ps cs else none

/-- Replace the first occurrence of `pat` by `rep` in a character list. -/
def replaceFirstList (pat rep : List Char) : List Char → List Char
  | [] => []
  | c :: cs =>
      match stripPrefixChars pat (c :: cs) with
      | some rest => rep ++ rest
      | none => c :: replaceFirstList pat rep cs

/-- JavaScript `String.prototype.replace` with a string pattern: only the
first occurrence is replaced. -/
def replaceFirst (s pat rep : String) : String :=
  String.mk (replaceFirstList pat.data rep.data s.data)

/-- The webhook target URL:
the backend URL, the path `/api/v1/webhook/evolution/` and the instance name
with its first `tenant_` occurrence removed. -/
def webhookUrl (backendUrl instanceName : String) : String :=
  backendUrl ++ "/api/v1/webhook/evolution/" ++ replaceFirst instanceName "tenant_" ""

/-- Per-message dispatch decision of the `messages.upsert` handler: skip when
the message has no body, is self-authored (`key.fromMe`), or has falsy text
content; otherwise build the payload and the URL.  The POST itself is issued
without `await` and its failure is only logged (`.catch`), so the decision is
the whole observable effect on the handler. -/
def processMessage (backendUrl instanceName : String) (now : Nat)
    (msg : UpsertMsg) : Option WebhookPost :=
  match msg.message with
  | none => none
  | some m =>
      if msg.key.fromMe then none
      else
        if truthyStr (msgContent m) then
          some { url := webhookUrl backendUrl instanceName
                 payload := { type := "messages.upsert"
                              key := msg.key
                              message := m
                              messageTimestamp := jsOrNat msg.messageTimestamp now } }
        else none

/-- The whole `messages.upsert` handler: events whose type is not "notify"
are dropped; otherwise each message is dispatched independently. -/
def processUpsert (backendUrl instanceName : String) (now : Nat)
    (utype : String) (msgs : List UpsertMsg) : List WebhookPost :=
  if utype = "notify" then msgs.filterMap (processMessage backendUrl instanceName now)
  else []

/-! ## Credential handling on create (lines 87–96) -/

/-- The durable credential store: one opaque blob per instance name (the
`./auth_info_<name>` folder). -/
def CredStore : Type := String → Option String

/-- The auth state handed to the socket. -/
inductive AuthState where
  | fresh
  | stored (blob : String)
  deriving DecidableEq, Repr

/-- `useMultiFileAuthState(authPath)`: loads the stored blob when the folder
holds one, otherwise initialises fresh credentials. -/
def useMultiFileAuthState (store : CredStore) (name : String) : AuthState :=
  match store name with
  | some blob => .stored blob
  | none => .fresh

/-- The credential steps of `POST /instance/create`: `if (fs.existsSync(authPath))
fs.rmSync(authPath, {recursive: true, force: true})`, then
`useMultiFileAuthState(authPath)`.  Returns the store after the deletion and
the auth state the new socket will use. -/
def prepareAuth (store : CredStore) (name : String) : CredStore × AuthState :=
  let storeAfter : CredStore :=
    match store name with
    | some _ => fun k => if k = name then none else store k
    | none => store
  (storeAfter, useMultiFileAuthState storeAfter name)

/-- Modelled from the spec, §4.1: `start()` begins a connect attempt using
stored credentials (if present) or fresh ones. -/
def specStartAuth (store : CredStore) (name : String) : AuthState :=
  match store name with
  | some blob => .stored blob
  | none => .fresh

/-!
## Claim theorems
-/

/-- C1: the initial-result wait of every create call is resolved by exactly
one of the four outcomes (code issued, open without code, terminal close,
60-second deadline) — never zero and never two.  Over any interleaving of
protocol events before and after the firing point of the 60 s timer, the
promise ends settled and exactly one settle call ever took effect, so once
one outcome fires the other three are no-ops for the blocked caller. -/
theorem C1_initial_result_exactly_one_outcome (pre post : List WaitEvent) :
    ((runWait initWait (pre ++ WaitEvent.deadline :: post)).cell.settled).isSome = true ∧
    (runWait initWait (pre ++ WaitEvent.deadline :: post)).cell.deliveries = 1 := by
  have hpre : WaitInv (runWait initWait pre) := waitInv_run _ _ waitInv_init
  have hdead : ((stepWait (runWait initWait pre) .deadline).cell.settled).isSome = true := by
    by_cases ht : (runWait initWait pre).timerArmed = true
    · have hs := hpre.2.1.mpr ht
      simp [stepWait, ht, PromiseCell.settle, hs]
    · have hns : ¬ (runWait initWait pre).cell.settled = none :=
        fun h => ht (hpre.2.1.mp h)
      cases hs : (runWait initWait pre).cell.settled with
      | none => exact absurd hs hns
      | some o => simp [stepWait, ht, hs]
  obtain ⟨o, ho⟩ := Option.isSome_iff_exists.mp hdead
  have hfin : (runWait (stepWait (runWait initWait pre) .deadline) post).cell.settled
      = some o := runWait_settled_mono _ _ _ ho
  have hinv : WaitInv (runWait (stepWait (runWait initWait pre) .deadline) post) :=
    waitInv_run _ _ (waitInv_step _ _ hpre)
  have hsplit : runWait initWait (pre ++ WaitEvent.deadline :: post)
      = runWait (stepWait (runWait initWait pre) .deadline) post := by
    simp [runWait, List.foldl_append]
  rw [hsplit]
  refine ⟨by simp [hfin], ?_⟩
  have hc := hinv.2.2
  rw [hfin] at hc
  simpa using hc

/-- C2 counterexample: an entry that exists and is not terminal (it is in the
map, still connecting, with no QR issued yet) is torn down by a second create
call — the duplicate checks fall through to the cleanup block, which ends the
old socket, deletes the entry and starts a fresh underlying session, contrary
to the claim that every non-terminal duplicate create is an idempotent return
of the in-flight state. -/
theorem C2_cex_create_tears_down_connecting_entry :
    (Registry.set Registry.empty "t1" (freshSession 0)) "t1" = some (freshSession 0) ∧
    createPath (Registry.set Registry.empty "t1" (freshSession 0)) "t1"
      = CreatePath.freshStart true := by
  exact ⟨rfl, rfl⟩

/-- C2 amended: a create call for an existing entry is idempotent only when
the entry is connected (returns the open status) or holds a pending QR
artifact (returns it); an existing entry that is still connecting with no
artifact stored is closed, removed and replaced by a fresh underlying
session. -/
theorem C2_create_idempotent_only_with_artifact_or_open
    (reg : Registry) (name : String) (s : Session) (h : reg name = some s) :
    (s.isConnected = true → createPath reg name = CreatePath.alreadyConnected ∧
        createApply reg name 0 = reg) ∧
    (∀ qr, s.isConnected = false → s.qrCode = some qr →
        createPath reg name = CreatePath.pendingQr qr ∧ createApply reg name 0 = reg) ∧
    (s.isConnected = false → s.qrCode = none →
        createPath reg name = CreatePath.freshStart true) := by
  refine ⟨fun hc => ?_, fun qr hc hq => ?_, fun hc hq => ?_⟩
  · constructor
    · simp [createPath, h, hc]
    · simp [createApply, createPath, h, hc]
  · constructor
    · simp [createPath, h, hc, hq]
    · simp [createApply, createPath, h, hc, hq]
  · simp [createPath, h, hc, hq]

/-- Witness for the C2 amended theorem at a concrete connected entry. -/
theorem C2_witness :
    createPath (Registry.set Registry.empty "t1" (handleOpen (freshSession 0))) "t1"
      = CreatePath.alreadyConnected ∧
    createApply (Registry.set Registry.empty "t1" (handleOpen (freshSession 0))) "t1" 0
      = Registry.set Registry.empty "t1" (handleOpen (freshSession 0)) :=
  (C2_create_idempotent_only_with_artifact_or_open
      (Registry.set Registry.empty "t1" (handleOpen (freshSession 0))) "t1"
      (handleOpen (freshSession 0)) rfl).1 rfl

/-- C3 counterexample: force a code-issued event and then a session-open
event before the create response is built.  The session record itself has the
artifact cleared, but the awaited promise already resolved with the artifact,
and the response handler attaches that resolution value unconditionally — so
the create response reports status "open" together with the QR artifact,
exposing an artifact after the lifecycle reached open. -/
theorem C3_cex_create_response_exposes_artifact_after_open :
    specLifecycle [ProtoEvent.qrIssued "QRDATA" "raw" 1, ProtoEvent.connOpen]
      = Lifecycle.opened ∧
    createFinish (Except.ok (some "QRDATA"))
        (Registry.set Registry.empty "t1"
          (sessRun (freshSession 0)
            [ProtoEvent.qrIssued "QRDATA" "raw" 1, ProtoEvent.connOpen]))
        "t1"
      = CreateResult.ok "open" (some "QRDATA") := by
  exact ⟨rfl, rfl⟩

/-- C3 amended: the open handler clears the stored artifact, and for a
connected session neither the QR query nor the status query ever returns an
artifact; the session-level invariant (connected implies no stored artifact)
is preserved by every protocol event.  The create response is the one
exception: it returns whatever value resolved the initial wait, even when the
session opened before the response was built (see the counterexample). -/
theorem C3_artifact_cleared_on_open_queries_safe
    (s s0 : Session) (e : ProtoEvent) (reg : Registry) (name : String) (now : Nat)
    (hconn : s.isConnected = true) (hclear : s.qrCode = none) :
    (handleOpen s0).qrCode = none ∧
    (handleOpen s0).isConnected = true ∧
    qrQuery (Registry.set reg name s) name now = QrQueryResult.connected ∧
    fetchInstances (Registry.set reg name s) name
      = FetchResult.found { name := name, connectionStatus := "open",
                            qrcode := none, createdAt := s.createdAt } ∧
    ((sessStep s e).isConnected = true → (sessStep s e).qrCode = none) := by
  refine ⟨rfl, rfl, ?_, ?_, ?_⟩
  · simp [qrQuery, Registry.set, hconn]
  · simp [fetchInstances, Registry.set, hconn, hclear]
  · cases e with
    | qrIssued qrBase64 qrRaw n => intro hx; simp [sessStep, handleQr] at hx
    | connOpen => intro _; rfl
    | close c => intro _; exact hclear

/-- Witness for the C3 amended theorem at a concrete opened session. -/
theorem C3_witness :
    qrQuery (Registry.set Registry.empty "t1"
        (handleOpen (handleQr (freshSession 0) "QR" "raw" 1))) "t1" 5
      = QrQueryResult.connected ∧
    fetchInstances (Registry.set Registry.empty "t1"
        (handleOpen (handleQr (freshSession 0) "QR" "raw" 1))) "t1"
      = FetchResult.found { name := "t1", connectionStatus := "open",
                            qrcode := none, createdAt := 0 } :=
  ⟨(C3_artifact_cleared_on_open_queries_safe
      (handleOpen (handleQr (freshSession 0) "QR" "raw" 1))
      (freshSession 0) ProtoEvent.connOpen Registry.empty "t1" 5 rfl rfl).2.2.1,
   (C3_artifact_cleared_on_open_queries_safe
      (handleOpen (handleQr (freshSession 0) "QR" "raw" 1))
      (freshSession 0) ProtoEvent.connOpen Registry.empty "t1" 5 rfl rfl).2.2.2.1⟩

/-- Helper for C4: every transient close leaves the registry unchanged and
schedules one reconnect, so a run of n transient closes schedules n
reconnects — the retry loop repeats for the life of the instance. -/
theorem runCloses_replicate (reg : Registry) (name : String) (r : Nat)
    (hr : r ≠ loggedOutCode) (n : Nat) :
    runCloses reg name (List.replicate n r) = (reg, n) := by
  induction n with
  | zero => rfl
  | succ k ih =>
      simp only [List.replicate_succ, runCloses, handleClose, hr, ne_eq,
        not_false_iff, if_true, ih, Option.isSome_some, if_pos]
      rw [Nat.add_comm]

/-- C4: a terminal (logged-out) close removes the registry entry, schedules
no reconnect, and every subsequent status query answers NotFound; any other
close reason leaves the entry in place and schedules a restart of the socket
after the fixed 2000 ms backoff, and a run of n such transient closes
schedules n reconnects — the loop is not limited to the first attempt. -/
theorem C4_terminal_removes_transient_reconnects
    (reg : Registry) (name : String) (r : Nat) (hr : r ≠ loggedOutCode) (n : Nat) :
    (handleClose reg name loggedOutCode).reconnectDelay = none ∧
    fetchInstances (handleClose reg name loggedOutCode).reg name = FetchResult.notFound ∧
    (handleClose reg name r).reconnectDelay = some 2000 ∧
    (handleClose reg name r).reg = reg ∧
    runCloses reg name (List.replicate n r) = (reg, n) := by
  refine ⟨?_, ?_, ?_, ?_, runCloses_replicate reg name r hr n⟩
  · simp [handleClose]
  · simp [handleClose, fetchInstances, Registry.erase]
  · simp [handleClose, hr]
  · simp [handleClose, hr]

/-- Witness for C4 with the stream-error status 515 as the transient reason
and two consecutive transient closes. -/
theorem C4_witness :
    (handleClose (Registry.set Registry.empty "t1" (freshSession 0)) "t1"
        loggedOutCode).reconnectDelay = none ∧
    fetchInstances (handleClose (Registry.set Registry.empty "t1" (freshSession 0))
        "t1" loggedOutCode).reg "t1" = FetchResult.notFound ∧
    (handleClose (Registry.set Registry.empty "t1" (freshSession 0)) "t1"
        515).reconnectDelay = some 2000 ∧
    (handleClose (Registry.set Registry.empty "t1" (freshSession 0)) "t1" 515).reg
      = Registry.set Registry.empty "t1" (freshSession 0) ∧
    runCloses (Registry.set Registry.empty "t1" (freshSession 0)) "t1"
        (List.replicate 2 515)
      = (Registry.set Registry.empty "t1" (freshSession 0), 2) :=
  C4_terminal_removes_transient_reconnects
    (Registry.set Registry.empty "t1" (freshSession 0)) "t1" 515 (by decide) 2

/-- C5 counterexample: the connected flag is not cleared by a transient
close, so after the session opened and then closed transiently — the spec
lifecycle is `connecting`, not `open` — a send call still passes the gate and
invokes the underlying client send primitive. -/
theorem C5_cex_send_delegated_during_reconnect :
    specLifecycle [ProtoEvent.connOpen, ProtoEvent.close 440] ≠ Lifecycle.opened ∧
    (sendText (Registry.set Registry.empty "t1"
        (sessRun (freshSession 0) [ProtoEvent.connOpen, ProtoEvent.close 440]))
        "t1" "123" "hi").2 = true := by
  exact ⟨by decide, rfl⟩

/-- C5 amended: the send endpoint delegates to the client exactly when the
entry exists and its connected flag is set, and otherwise fails with the
NotConnected error without invoking the client; but the connected flag only
tracks the last open/code event — no close event clears it — so during the
reconnect window after a transient close a send is still delegated. -/
theorem C5_send_gate_connected_flag (reg : Registry) (name number text : String)
    (s : Session) (c : Nat) :
    ((sendText reg name number text).2 = true ↔
        ∃ t, reg name = some t ∧ t.isConnected = true) ∧
    ((sendText reg name number text).1 = SendResult.notConnected ↔
        ¬ ∃ t, reg name = some t ∧ t.isConnected = true) ∧
    (sessStep s (ProtoEvent.close c)) = s := by
  refine ⟨?_, ?_, rfl⟩
  · cases h : reg name with
    | none => simp [sendText, h]
    | some t =>
        cases hc : t.isConnected with
        | false => simp [sendText, h, hc]
        | true => simp [sendText, h, hc]
  · cases h : reg name with
    | none => simp [sendText, h]
    | some t =>
        cases hc : t.isConnected with
        | false => simp [sendText, h, hc]
        | true => simp [sendText, h, hc]

/-- C6 counterexample: an artifact issued at time 1000 and queried at time
62000 is 61000 ms old, beyond the 60000 ms validity window; the QR endpoint
correctly reports waiting, but the status query (fetchInstances) still serves
the stale artifact, with no freshness check and no expiry information. -/
theorem C6_cex_status_serves_stale_artifact :
    62000 - 1000 ≥ 60000 ∧
    qrQuery (Registry.set Registry.empty "t1" (handleQr (freshSession 0) "QR" "raw" 1000))
        "t1" 62000 = QrQueryResult.waiting ∧
    fetchInstances
        (Registry.set Registry.empty "t1" (handleQr (freshSession 0) "QR" "raw" 1000))
        "t1"
      = FetchResult.found { name := "t1", connectionStatus := "close",
                            qrcode := some "QR", createdAt := 0 } := by
  refine ⟨by decide, by decide, rfl⟩

/-- C6 amended: the dedicated QR query enforces the 60-second freshness
window — an artifact younger than the window is returned together with its
remaining seconds to expiry, a stale one is never served — while the
fetchInstances status query returns the stored artifact unconditionally,
without any freshness check. -/
theorem C6_qr_query_freshness (reg : Registry) (name qr : String) (s : Session)
    (t now : Nat) (h : reg name = some s) (hconn : s.isConnected = false)
    (hqr : s.qrCode = some qr) (ht : s.qrGeneratedAt = some t) (ht0 : t ≠ 0) :
    (now - t < 60000 →
        qrQuery reg name now = QrQueryResult.fresh qr ((60000 - (now - t)) / 1000)) ∧
    (60000 ≤ now - t → qrQuery reg name now = QrQueryResult.waiting) ∧
    fetchInstances reg name
      = FetchResult.found { name := name, connectionStatus := "close",
                            qrcode := some qr, createdAt := s.createdAt } := by
  refine ⟨fun hfreshAge => ?_, fun hstale => ?_, ?_⟩
  · simp [qrQuery, h, hconn, hqr, ht, ht0, hfreshAge]
  · simp [qrQuery, h, hconn, hqr, ht, ht0, Nat.not_lt.mpr hstale]
  · simp [fetchInstances, h, hconn, hqr]

/-- Witness for C6 at a fresh artifact: issued at 1000, queried at 2000,
59 seconds left. -/
theorem C6_witness :
    qrQuery (Registry.set Registry.empty "t1" (handleQr (freshSession 0) "QR" "raw" 1000))
        "t1" 2000 = QrQueryResult.fresh "QR" 59 :=
  (C6_qr_query_freshness
      (Registry.set Registry.empty "t1" (handleQr (freshSession 0) "QR" "raw" 1000))
      "t1" "QR" (handleQr (freshSession 0) "QR" "raw" 1000) 1000 2000
      rfl rfl rfl rfl (by decide)).1 (by decide)

/-- C7: when the deadline elapses with no protocol event at all, the wait
settles with the timeout outcome, the create call answers with the timeout
error — but the timeout callback only rejects the promise (it touches neither
the sessions map nor the socket), so the registry entry survives: the status
query still finds the instance with a non-open status, and if the connect
attempt later succeeds the same query reports it open. -/
theorem C7_timeout_leaves_instance_connecting (reg : Registry) (name : String)
    (s : Session) (h : reg name = some s) (hconn : s.isConnected = false) :
    (runWait initWait [WaitEvent.deadline]).cell.settled = some Outcome.timeout ∧
    createFinish (resolutionOf Outcome.timeout "") reg name
      = CreateResult.error "QR generation timeout" ∧
    fetchInstances reg name
      = FetchResult.found { name := name, connectionStatus := "close",
                            qrcode := s.qrCode, createdAt := s.createdAt } ∧
    (if s.isConnected then "open" else "close") ≠ "open" ∧
    fetchInstances (Registry.set reg name (handleOpen s)) name
      = FetchResult.found { name := name, connectionStatus := "open",
                            qrcode := none, createdAt := s.createdAt } := by
  refine ⟨rfl, rfl, ?_, ?_, ?_⟩
  · simp [fetchInstances, h, hconn]
  · simp [hconn]
  · simp [fetchInstances, Registry.set, handleOpen]

/-- Witness for C7 at a concrete just-created instance. -/
theorem C7_witness :
    (runWait initWait [WaitEvent.deadline]).cell.settled = some Outcome.timeout ∧
    createFinish (resolutionOf Outcome.timeout "")
        (Registry.set Registry.empty "t1" (freshSession 0)) "t1"
      = CreateResult.error "QR generation timeout" ∧
    fetchInstances (Registry.set Registry.empty "t1" (freshSession 0)) "t1"
      = FetchResult.found { name := "t1", connectionStatus := "close",
                            qrcode := none, createdAt := 0 } ∧
    (if (freshSession 0).isConnected then "open" else "close") ≠ "open" ∧
    fetchInstances (Registry.set (Registry.set Registry.empty "t1" (freshSession 0))
        "t1" (handleOpen (freshSession 0))) "t1"
      = FetchResult.found { name := "t1", connectionStatus := "open",
                            qrcode := none, createdAt := 0 } :=
  C7_timeout_leaves_instance_connecting
    (Registry.set Registry.empty "t1" (freshSession 0)) "t1" (freshSession 0) rfl rfl

/-- Helper for C8: after a delete call the entry is gone from the map,
whatever the lookup found and whatever the cleanup outcomes were. -/
theorem deleteInstance_lookup_none (reg : Registry) (name : String)
    (lo : LogoutOutcome) (tt rm : Bool) :
    (deleteInstance reg name lo tt rm).2 name = none := by
  cases h : reg name with
  | none => simp [deleteInstance, h]
  | some s => simp [deleteInstance, h, Registry.erase]

/-- C8: the delete endpoint always acknowledges and removes the entry, for
every combination of logout outcome (success, failure, 2 s race timeout),
terminate failure and auth-folder removal failure; calling it twice in a row
and calling it on an identity that was never created also acknowledge. -/
theorem C8_delete_idempotent_always_acks (reg : Registry) (name : String)
    (lo lo2 : LogoutOutcome) (tt tt2 rm rm2 : Bool) :
    (deleteInstance reg name lo tt rm).1 = "Instance deleted" ∧
    (deleteInstance reg name lo tt rm).2 name = none ∧
    (deleteInstance (deleteInstance reg name lo tt rm).2 name lo2 tt2 rm2).1
      = "Instance deleted" ∧
    (deleteInstance (deleteInstance reg name lo tt rm).2 name lo2 tt2 rm2).2 name
      = none ∧
    (deleteInstance Registry.empty name lo tt rm).1 = "Instance deleted" := by
  exact ⟨rfl, deleteInstance_lookup_none reg name lo tt rm, rfl,
    deleteInstance_lookup_none _ name lo2 tt2 rm2, rfl⟩

/-- C9 counterexample: a qualifying inbound message produces a POST whose
payload has `type = "messages.upsert"` and a `messageTimestamp` field — not
the claimed `{type: "message", data: {key, message, timestamp}}` shape. -/
theorem C9_cex_payload_shape :
    processMessage "http://backend:8000" "tenant_abc" 7
        { key := { remoteJid := "123@s.whatsapp.net", fromMe := false, id := "A1" },
          message := some { conversation := some "hello", extendedText := none },
          messageTimestamp := some 5 }
      = some { url := "http://backend:8000/api/v1/webhook/evolution/abc",
               payload := { type := "messages.upsert",
                            key := { remoteJid := "123@s.whatsapp.net",
                                     fromMe := false, id := "A1" },
                            message := { conversation := some "hello",
                                         extendedText := none },
                            messageTimestamp := 5 } } ∧
    ("messages.upsert" : String) ≠ "message" := by
  exact ⟨rfl, by decide⟩

/-- C9 amended: for every inbound message of a notify-type upsert that has a
body, is not self-authored and has truthy text content, the dispatcher emits
exactly one POST, fire-and-forget, to the URL derived deterministically from
the instance identity, with the payload
`{type: "messages.upsert", data: {key, message, messageTimestamp}}`;
self-authored, bodyless or empty-text messages produce no POST, and upserts
whose type is not notify produce none at all. -/
theorem C9_webhook_dispatch (backendUrl instanceName : String) (now : Nat)
    (msg : UpsertMsg) (m : WAMessage) (utype : String) (msgs : List UpsertMsg) :
    (msg.key.fromMe = true → processMessage backendUrl instanceName now msg = none) ∧
    (msg.message = none → processMessage backendUrl instanceName now msg = none) ∧
    (msg.message = some m → msg.key.fromMe = false → truthyStr (msgContent m) = true →
        processMessage backendUrl instanceName now msg
          = some { url := webhookUrl backendUrl instanceName
                   payload := { type := "messages.upsert", key := msg.key, message := m,
                                messageTimestamp := jsOrNat msg.messageTimestamp now } }) ∧
    (msg.message = some m → truthyStr (msgContent m) = false →
        processMessage backendUrl instanceName now msg = none) ∧
    (utype ≠ "notify" → processUpsert backendUrl instanceName now utype msgs = []) ∧
    processUpsert backendUrl instanceName now "notify" msgs
      = msgs.filterMap (processMessage backendUrl instanceName now) := by
  refine ⟨fun hme => ?_, fun hnone => ?_, fun hm hme htr => ?_,
          fun hm htr => ?_, fun hty => ?_, ?_⟩
  · cases hb : msg.message with
    | none => simp [processMessage, hb]
    | some mb => simp [processMessage, hb, hme]
  · simp [processMessage, hnone]
  · simp [processMessage, hm, hme, htr]
  · cases hme : msg.key.fromMe with
    | true => simp [processMessage, hm, hme]
    | false => simp [processMessage, hm, hme, htr]
  · simp [processUpsert, hty]
  · simp [processUpsert]

/-- Witness for C9 at a concrete qualifying message and a skipped
self-authored one. -/
theorem C9_witness :
    processMessage "http://backend:8000" "tenant_abc" 7
        { key := { remoteJid := "5@s.whatsapp.net", fromMe := false, id := "B2" },
          message := some { conversation := none, extendedText := some "yo" },
          messageTimestamp := none }
      = some { url := webhookUrl "http://backend:8000" "tenant_abc"
               payload := { type := "messages.upsert",
                            key := { remoteJid := "5@s.whatsapp.net",
                                     fromMe := false, id := "B2" },
                            message := { conversation := none,
                                         extendedText := some "yo" },
                            messageTimestamp := jsOrNat none 7 } } ∧
    processMessage "http://backend:8000" "tenant_abc" 7
        { key := { remoteJid := "5@s.whatsapp.net", fromMe := true, id := "B3" },
          message := some { conversation := some "hi", extendedText := none },
          messageTimestamp := none }
      = none :=
  ⟨(C9_webhook_dispatch "http://backend:8000" "tenant_abc" 7
      { key := { remoteJid := "5@s.whatsapp.net", fromMe := false, id := "B2" },
        message := some { conversation := none, extendedText := some "yo" },
        messageTimestamp := none }
      { conversation := none, extendedText := some "yo" } "notify" []).2.2.1
      rfl rfl (by decide),
   (C9_webhook_dispatch "http://backend:8000" "tenant_abc" 7
      { key := { remoteJid := "5@s.whatsapp.net", fromMe := true, id := "B3" },
        message := some { conversation := some "hi", extendedText := none },
        messageTimestamp := none }
      { conversation := some "hi", extendedText := none } "notify" []).1 rfl⟩

/-- C10 counterexample: with a blob stored for the instance, the spec says
the connect attempt should use the stored credentials, but the create path
deletes the auth folder first, so the auth state handed to the socket is
fresh. -/
theorem C10_cex_stored_credentials_discarded :
    specStartAuth (fun k => if k = "t1" then some "BLOB" else none) "t1"
      = AuthState.stored "BLOB" ∧
    (prepareAuth (fun k => if k = "t1" then some "BLOB" else none) "t1").2
      = AuthState.fresh ∧
    AuthState.stored "BLOB" ≠ AuthState.fresh := by
  exact ⟨rfl, rfl, by decide⟩

/-- C10 amended: the create path always deletes any stored credential blob
before loading the auth state, so every create-initiated connect attempt
starts with fresh credentials (forcing a new code) and leaves no blob behind;
the code agrees with the spec only in the no-stored-blob case. -/
theorem C10_create_always_fresh_credentials (store : CredStore) (name : String) :
    (prepareAuth store name).2 = AuthState.fresh ∧
    (prepareAuth store name).1 name = none ∧
    (store name = none → (prepareAuth store name).2 = specStartAuth store name) := by
  cases h : store name with
  | none =>
      refine ⟨?_, ?_, fun _ => ?_⟩ <;> simp [prepareAuth, useMultiFileAuthState,
        specStartAuth, h]
  | some blob =>
      refine ⟨?_, ?_, fun hn => ?_⟩
      · simp [prepareAuth, useMultiFileAuthState, h]
      · simp [prepareAuth, h]
      · exact Option.noConfusion hn

/-- Witness for the C10 amended theorem at a store holding a blob for the
instance. -/
theorem C10_witness :
    (prepareAuth (fun k => if k = "t2" then some "OLDBLOB" else none) "t2").2
      = AuthState.fresh ∧
    (prepareAuth (fun k => if k = "t2" then some "OLDBLOB" else none) "t2").1 "t2"
      = none :=
  ⟨(C10_create_always_fresh_credentials
      (fun k => if k = "t2" then some "OLDBLOB" else none) "t2").1,
   (C10_create_always_fresh_credentials
      (fun k => if k = "t2" then some "OLDBLOB" else none) "t2").2.1⟩

end Baileys
